import Mathlib

/-!
Verification of the ShareMeal backend (FastAPI + MongoDB food-sharing API).

The Python sources are shallowly embedded: pure helpers become Lean
functions, MongoDB collections become Lean lists of documents, and each
route handler becomes a function from the relevant state and arguments to
a `HandlerResult` that distinguishes successful responses, structured
`HTTPException`s, and unhandled Python exceptions escaping the handler
(which FastAPI surfaces as a 500 server failure).

Cryptographic primitives (SHA-256, bcrypt via passlib, HMAC signing for
JWT) are modelled as parameters with their interface properties stated as
hypotheses, since their bit-level definitions are external libraries.
Python floats are idealised as exact numbers (ℚ for stored coordinates,
ℝ for the trigonometric Haversine computation).
-/

/-! ## Common result types (FastAPI error surface, src/backend/main.py) -/

/-- Outcome of a route handler: a successful value, a structured
`HTTPException(status_code, detail)`, or an unhandled exception escaping
the handler (FastAPI then returns a 500 Internal Server Error). -/
inductive HandlerResult (α : Type) where
  | ok : α → HandlerResult α
  | http : Nat → String → HandlerResult α
  | serverError : String → HandlerResult α
deriving DecidableEq

/-- `bson.ObjectId` accepts exactly 24-character hexadecimal strings;
any other string raises `InvalidId` (src/backend/main.py calls
`ObjectId(...)` on path parameters with no surrounding try/except). -/
def isHexChar (c : Char) : Bool :=
  c.isDigit || ('a' ≤ c && c ≤ 'f') || ('A' ≤ c && c ≤ 'F')

/-- Validity of a string as a BSON ObjectId (24 hex characters). -/
def isValidObjectId (s : String) : Bool :=
  s.length == 24 && s.toList.all isHexChar

/-- Python's `str.strip()`: the character sequence with leading and
trailing whitespace removed. -/
def pyStrip (v : String) : List Char :=
  (((v.toList.dropWhile Char.isWhitespace).reverse).dropWhile
    Char.isWhitespace).reverse

/-! ## Password validators (src/backend/models.py) -/

/-- `RegisterRequest.validate_password` (models.py lines 71-97):
the if-chain of the Pydantic field validator, raising `ValueError`
messages in source order. -/
def validate_password (v : String) : Except String String :=
  if v == "" || (pyStrip v).length == 0 then
    Except.error "Password cannot be empty"
  else if v.length < 8 then
    Except.error "Password must be at least 8 characters long"
  else if 128 < v.length then
    Except.error "Password cannot be longer than 128 characters"
  else if !(v.toList.any Char.isAlpha) then
    Except.error "Password must contain at least one letter"
  else if !(v.toList.any Char.isDigit) then
    Except.error "Password must contain at least one number"
  else
    Except.ok v

/-- `PasswordChangeRequest.validate_new_password` (models.py lines
132-155): identical checks with "New password" messages. -/
def validate_new_password (v : String) : Except String String :=
  if v == "" || (pyStrip v).length == 0 then
    Except.error "New password cannot be empty"
  else if v.length < 8 then
    Except.error "New password must be at least 8 characters long"
  else if 128 < v.length then
    Except.error "New password cannot be longer than 128 characters"
  else if !(v.toList.any Char.isAlpha) then
    Except.error "New password must contain at least one letter"
  else if !(v.toList.any Char.isDigit) then
    Except.error "New password must contain at least one number"
  else
    Except.ok v

/-- The password-policy violation condition exactly as the specification
enumerates it: empty or all-whitespace, length < 8, length > 128, no
alphabetic character, or no digit character. -/
def password_policy_violation (v : String) : Bool :=
  v == "" || (pyStrip v).length == 0 || decide (v.length < 8) ||
    decide (128 < v.length) || !(v.toList.any Char.isAlpha) || !(v.toList.any Char.isDigit)

/-- C3. Password policy enforcement: both validators fail with an
InvalidInput error exactly when the value is empty/all-whitespace, or
shorter than 8, or longer than 128, or has no letter, or has no digit;
otherwise the value is accepted unchanged. -/
theorem password_policy_characterization (v : String) :
    ((∃ e, validate_password v = Except.error e) ↔
      password_policy_violation v = true) ∧
    ((∃ e, validate_new_password v = Except.error e) ↔
      password_policy_violation v = true) ∧
    (password_policy_violation v = false →
      validate_password v = Except.ok v ∧
        validate_new_password v = Except.ok v) := by
  unfold validate_password validate_new_password password_policy_violation
  split_ifs with h1 h2 h3 h4 h5 <;> simp_all
  tauto

/-- Concrete instances of C3: "goodpass1" is accepted unchanged by both
validators, while "short1" violates the policy and is rejected. -/
theorem password_policy_characterization_witness :
    (validate_password "goodpass1" = Except.ok "goodpass1" ∧
      validate_new_password "goodpass1" = Except.ok "goodpass1") ∧
    (∃ e, validate_password "short1" = Except.error e) :=
  ⟨(password_policy_characterization "goodpass1").2.2 (by decide),
    ((password_policy_characterization "short1").1).mpr (by decide)⟩

/-! ## Credential subsystem (src/backend/auth.py)

SHA-256, base64, and bcrypt (passlib `CryptContext`) are external
cryptographic libraries; they are modelled as a bundle of abstract
functions, and the security properties the claims rely on (bcrypt
verification soundness/completeness, pre-hash injectivity) are stated as
hypotheses of the theorems and discharged on a concrete toy
instantiation in the witnesses. -/

/-- The external cryptographic primitives used by auth.py: `sha256_b64`
is the composite `base64.b64encode(hashlib.sha256(- .encode()).digest())`,
`bcrypt_hash` is `pwd_context.hash`, `bcrypt_verify` is
`pwd_context.verify`. -/
structure CryptoPrimitives where
  sha256_b64 : String → String
  bcrypt_hash : String → String
  bcrypt_verify : String → String → Bool

/-- `_prehash_password` (auth.py lines 30-37): SHA-256 digest of the
UTF-8 bytes, then base64-encode. -/
def _prehash_password (P : CryptoPrimitives) (password : String) : String :=
  P.sha256_b64 password

/-- `verify_password` (auth.py lines 40-44): pre-hash the plaintext,
then check it against the stored hash with bcrypt. -/
def verify_password (P : CryptoPrimitives)
    (plain_password hashed_password : String) : Bool :=
  P.bcrypt_verify (_prehash_password P plain_password) hashed_password

/-- `get_password_hash` (auth.py lines 47-54, success path): pre-hash
with SHA-256/base64, then bcrypt-hash the 44-character result. -/
def get_password_hash (P : CryptoPrimitives) (password : String) : String :=
  P.bcrypt_hash (_prehash_password P password)

/-- C1. Password round-trip: for a policy-satisfying password `p`,
verification succeeds against `hash p` and fails against `hash (p ++ "x")`,
assuming bcrypt accepts a value against its own hash, accepts a value
against a hash only if it is the hashed value, and the SHA-256/base64
pre-hash is injective; moreover verification applies exactly the
pre-hash of the supplied plaintext before the bcrypt check. -/
theorem password_round_trip (P : CryptoPrimitives) (p stored : String)
    (hpolicy : validate_password p = Except.ok p)
    (hcomplete : ∀ s, P.bcrypt_verify s (P.bcrypt_hash s) = true)
    (hsound : ∀ s t, P.bcrypt_verify s (P.bcrypt_hash t) = true → s = t)
    (hinj : Function.Injective P.sha256_b64) :
    verify_password P p (get_password_hash P p) = true ∧
    verify_password P p (get_password_hash P (p ++ "x")) = false ∧
    verify_password P p stored =
      P.bcrypt_verify (P.sha256_b64 p) stored := by
  refine ⟨hcomplete _, ?_, rfl⟩
  by_contra hne
  have htrue : P.bcrypt_verify (_prehash_password P p)
      (P.bcrypt_hash (_prehash_password P (p ++ "x"))) = true := by
    revert hne
    unfold verify_password get_password_hash
    intro hne
    exact eq_true_of_ne_false hne
  have hpre : _prehash_password P p = _prehash_password P (p ++ "x") :=
    hsound _ _ htrue
  have hp : p = p ++ "x" := hinj hpre
  have hlen := congrArg String.length hp
  rw [String.length_append] at hlen
  have hx : "x".length = 1 := rfl
  omega

/-- A toy instantiation of the cryptographic primitives in which the
pre-hash is the identity and bcrypt hashing is the identity with
equality comparison; it satisfies all the interface hypotheses. -/
def toyCrypto : CryptoPrimitives where
  sha256_b64 := fun s => s
  bcrypt_hash := fun s => s
  bcrypt_verify := fun s t => s == t

/-- Witness for C1 at the concrete password "goodpass1" under the toy
primitives. -/
theorem password_round_trip_witness :
    verify_password toyCrypto "goodpass1"
      (get_password_hash toyCrypto "goodpass1") = true ∧
    verify_password toyCrypto "goodpass1"
      (get_password_hash toyCrypto ("goodpass1" ++ "x")) = false ∧
    verify_password toyCrypto "goodpass1" "somestoredhash" =
      toyCrypto.bcrypt_verify (toyCrypto.sha256_b64 "goodpass1")
        "somestoredhash" :=
  password_round_trip toyCrypto "goodpass1" "somestoredhash"
    rfl
    (fun s => by simp [toyCrypto])
    (fun s t h => by simpa [toyCrypto] using h)
    (fun a b h => h)

/-! ## JWT tokens (src/backend/auth.py lines 71-101)

`python-jose`'s `jwt.encode`/`jwt.decode` with a symmetric HS256 secret
are modelled as attaching/checking a signature computed by an abstract
signing function over the payload; `jwt.decode` also validates the
`exp` claim against the current time, raising `JWTError` (a past expiry
or a wrong signature both surface as `JWTError`). -/

/-- The claim payload of a ShareMeal token: the `sub`/`email`/`name`
claims plus the `exp` expiry timestamp (seconds since epoch). -/
structure TokenPayload where
  sub : Option String
  email : Option String
  name : Option String
  exp : Int
deriving DecidableEq

/-- An encoded JWT: payload plus signature string. -/
structure Jwt where
  payload : TokenPayload
  sig : String
deriving DecidableEq

/-- `ACCESS_TOKEN_EXPIRE_MINUTES = 60 * 24 * 7` (auth.py line 21). -/
def ACCESS_TOKEN_EXPIRE_MINUTES : Int := 60 * 24 * 7

/-- `jwt.encode(payload, secret, algorithm)`: sign the payload. -/
def jwt_encode (sign : String → TokenPayload → String) (secret : String)
    (p : TokenPayload) : Jwt :=
  { payload := p, sig := sign secret p }

/-- `jwt.decode(token, secret, algorithms)` at time `now`: `none` models
a raised `JWTError` (bad signature, or expired `exp` claim). -/
def jwt_decode (sign : String → TokenPayload → String) (secret : String)
    (t : Jwt) (now : Int) : Option TokenPayload :=
  if t.sig == sign secret t.payload then
    if t.payload.exp < now then none else some t.payload
  else none

/-- The claim set passed to `create_access_token` by the handlers:
`{sub, email, name}`. -/
structure ClaimsData where
  sub : Option String
  email : Option String
  name : Option String
deriving DecidableEq

/-- `create_access_token` (auth.py lines 71-81): add an `exp` claim of
`now + expires_delta` (default 7 days, in seconds) and sign. -/
def create_access_token (sign : String → TokenPayload → String)
    (secret : String) (now : Int) (data : ClaimsData)
    (expires_delta : Option Int) : Jwt :=
  let expire : Int := now +
    (match expires_delta with
      | some d => d
      | none => ACCESS_TOKEN_EXPIRE_MINUTES * 60)
  jwt_encode sign secret
    { sub := data.sub, email := data.email, name := data.name, exp := expire }

/-- The `{uid, email, name}` bundle returned by `verify_token`. -/
structure AuthUser where
  uid : String
  email : Option String
  name : Option String
deriving DecidableEq

/-- `verify_token` (auth.py lines 84-101): decode (signature + expiry
check), reject a missing `sub` claim, else return `{uid, email, name}`;
every failure is HTTP 401 "Invalid authentication credentials". -/
def verify_token (sign : String → TokenPayload → String) (secret : String)
    (now : Int) (token : Jwt) : HandlerResult AuthUser :=
  match jwt_decode sign secret token now with
  | none => HandlerResult.http 401 "Invalid authentication credentials"
  | some payload =>
    match payload.sub with
    | none => HandlerResult.http 401 "Invalid authentication credentials"
    | some user_id =>
      HandlerResult.ok { uid := user_id, email := payload.email, name := payload.name }

/-- C2. Token round-trip: a token issued for `{sub s, email e, name n}`
and verified before its expiry yields exactly `{uid s, email e, name n}`;
the same payload with an altered signature is rejected with 401, and a
token whose expiry lies in the past is rejected with 401. -/
theorem token_round_trip (sign : String → TokenPayload → String)
    (secret : String) (now now2 : Int) (s e n badSig : String) (texp : Int)
    (hfresh : now2 ≤ now + ACCESS_TOKEN_EXPIRE_MINUTES * 60)
    (haltered : badSig ≠ sign secret
      ⟨some s, some e, some n, now + ACCESS_TOKEN_EXPIRE_MINUTES * 60⟩)
    (hpast : texp < now2) :
    verify_token sign secret now2
        (create_access_token sign secret now
          { sub := some s, email := some e, name := some n } none) =
      HandlerResult.ok { uid := s, email := some e, name := some n } ∧
    verify_token sign secret now2
        ⟨⟨some s, some e, some n, now + ACCESS_TOKEN_EXPIRE_MINUTES * 60⟩,
          badSig⟩ =
      HandlerResult.http 401 "Invalid authentication credentials" ∧
    verify_token sign secret now2
        (jwt_encode sign secret ⟨some s, some e, some n, texp⟩) =
      HandlerResult.http 401 "Invalid authentication credentials" := by
  refine ⟨?_, ?_, ?_⟩
  · have hnotexp : ¬ (now + ACCESS_TOKEN_EXPIRE_MINUTES * 60 < now2) := by
      omega
    simp [verify_token, create_access_token, jwt_encode, jwt_decode, hnotexp]
  · simp [verify_token, jwt_decode, haltered]
  · simp [verify_token, jwt_encode, jwt_decode, hpast]

/-- Witness for C2 with a concrete constant signing function, the claims
from the specification's example, issuance at time 0, verification at
time 1, a forged signature "forged", and an expired token with
`exp = 0 < 1`. -/
theorem token_round_trip_witness :
    verify_token (fun q _ => q ++ "-mac") "k" 1
        (create_access_token (fun q _ => q ++ "-mac") "k" 0
          { sub := some "abc123", email := some "a@b.com", name := some "A" }
          none) =
      HandlerResult.ok
        { uid := "abc123", email := some "a@b.com", name := some "A" } ∧
    verify_token (fun q _ => q ++ "-mac") "k" 1
        ⟨⟨some "abc123", some "a@b.com", some "A",
          0 + ACCESS_TOKEN_EXPIRE_MINUTES * 60⟩, "forged"⟩ =
      HandlerResult.http 401 "Invalid authentication credentials" ∧
    verify_token (fun q _ => q ++ "-mac") "k" 1
        (jwt_encode (fun q _ => q ++ "-mac") "k"
          ⟨some "abc123", some "a@b.com", some "A", 0⟩) =
      HandlerResult.http 401 "Invalid authentication credentials" :=
  token_round_trip (fun q _ => q ++ "-mac") "k" 0 1 "abc123" "a@b.com" "A"
    "forged" 0 (by decide) (by decide) (by decide)

/-! ## Document model (MongoDB collections `users`, `food_items`,
`requests`, src/backend/database.py and main.py)

Each collection is a list of documents; `find_one` by a field is
`List.find?`, `update_one` with `$set` is a `List.map` that rewrites the
matching document, `delete_one` is `List.eraseP`, and `delete_many` is a
`List.filter` whose `deleted_count` is the number of removed documents.
MongoDB `_id`s are kept as their 24-hex string rendering. -/

/-- A document of the `users` collection (created by `register`,
main.py lines 124-130, with the optional `picture` and `fcm_token`
fields some flows add). -/
structure UserDoc where
  _id : String
  email : String
  name : String
  hashed_password : String
  picture : Option String
  fcm_token : Option String
  created_at : String
  updated_at : String
deriving DecidableEq

/-- A document of the `food_items` collection (created by
`create_food_item`, main.py lines 334-344; `updated_at` is only present
after a PATCH). Python float coordinates are idealised as rationals. -/
structure FoodDoc where
  _id : String
  title : String
  pickup_lat : ℚ
  pickup_lng : ℚ
  pickup_address : String
  quantity : String
  available_until : String
  items : List String
  donor_uid : String
  created_at : String
  updated_at : Option String
deriving DecidableEq

/-- A document of the `requests` collection (created by
`create_request`, main.py lines 487-494; `updated_at` only after a
status PATCH). -/
structure RequestDoc where
  _id : String
  food_id : String
  requester_uid : String
  donor_uid : String
  status : String
  notes : Option String
  created_at : String
  updated_at : Option String
deriving DecidableEq

/-- One `send_notification(token, title, body)` call (src/backend/fcm.py). -/
structure Notification where
  token : String
  title : String
  body : String
deriving DecidableEq

/-! ## POST /auth/login (main.py lines 174-231) -/

/-- `LoginRequest` (models.py lines 100-111). -/
structure LoginRequest where
  email : String
  password : String
deriving DecidableEq

/-- The sanitized user object of the login response (main.py lines
209-217), built from the user document fetched before the
`updated_at` touch. -/
structure UserOut where
  id : String
  uid : String
  email : String
  name : String
  picture : Option String
  created_at : String
  updated_at : String
deriving DecidableEq

/-- `AuthResponse` (models.py lines 114-118). -/
structure AuthResponseOut where
  access_token : Jwt
  token_type : String
  user : UserOut
  message : String
deriving DecidableEq

/-- The `login` handler (main.py lines 174-231): find the user by
email; absent user or failing password verification both raise
HTTP 401 "Invalid email or password"; on success issue a token, touch
the user's `updated_at`, and return the sanitized response. `nowT` is
the token clock, `nowS` the ISO timestamp written to the document. -/
def login (P : CryptoPrimitives) (sign : String → TokenPayload → String)
    (secret : String) (nowT : Int) (nowS : String) (users : List UserDoc)
    (req : LoginRequest) : HandlerResult (AuthResponseOut × List UserDoc) :=
  match users.find? (fun u => u.email == req.email) with
  | none => HandlerResult.http 401 "Invalid email or password"
  | some user =>
    if !(verify_password P req.password user.hashed_password) then
      HandlerResult.http 401 "Invalid email or password"
    else
      let user_id := user._id
      let tok := create_access_token sign secret nowT
        ⟨some user_id, some user.email, some user.name⟩ none
      let users' := users.map (fun u =>
        if u._id == user_id then { u with updated_at := nowS } else u)
      HandlerResult.ok
        (⟨tok, "bearer",
          ⟨user_id, user_id, user.email, user.name, user.picture,
            user.created_at, user.updated_at⟩,
          "Login successful"⟩, users')

/-- C4. Login failure indistinguishability: an attempt whose email is
not in the users collection and an attempt that finds a user but fails
password verification produce the same response, HTTP 401
"Invalid email or password". -/
theorem login_failure_indistinguishable (P : CryptoPrimitives)
    (sign : String → TokenPayload → String) (secret : String)
    (nowT : Int) (nowS : String) (users : List UserDoc)
    (reqA reqB : LoginRequest) (userB : UserDoc)
    (habsent : users.find? (fun u => u.email == reqA.email) = none)
    (hfound : users.find? (fun u => u.email == reqB.email) = some userB)
    (hbadpw : verify_password P reqB.password userB.hashed_password = false) :
    login P sign secret nowT nowS users reqA =
      HandlerResult.http 401 "Invalid email or password" ∧
    login P sign secret nowT nowS users reqB =
      HandlerResult.http 401 "Invalid email or password" ∧
    login P sign secret nowT nowS users reqA =
      login P sign secret nowT nowS users reqB := by
  have hA : login P sign secret nowT nowS users reqA =
      HandlerResult.http 401 "Invalid email or password" := by
    unfold login
    rw [habsent]
  have hB : login P sign secret nowT nowS users reqB =
      HandlerResult.http 401 "Invalid email or password" := by
    unfold login
    rw [hfound]
    simp [hbadpw]
  exact ⟨hA, hB, hA.trans hB.symm⟩

/-- Witness for C4: one stored user; attempt A uses an unknown email,
attempt B uses the stored email with a wrong password (under the toy
primitives the stored hash of "rightpass1" never verifies against
"wrongpass1"). -/
theorem login_failure_indistinguishable_witness :
    login toyCrypto (fun q _ => q ++ "-mac") "k" 0 "t1"
        [⟨"aaaaaaaaaaaaaaaaaaaaaaa1", "a@b.com", "A",
          get_password_hash toyCrypto "rightpass1", none, none, "t0", "t0"⟩]
        ⟨"nobody@x.com", "rightpass1"⟩ =
      HandlerResult.http 401 "Invalid email or password" ∧
    login toyCrypto (fun q _ => q ++ "-mac") "k" 0 "t1"
        [⟨"aaaaaaaaaaaaaaaaaaaaaaa1", "a@b.com", "A",
          get_password_hash toyCrypto "rightpass1", none, none, "t0", "t0"⟩]
        ⟨"a@b.com", "wrongpass1"⟩ =
      HandlerResult.http 401 "Invalid email or password" ∧
    login toyCrypto (fun q _ => q ++ "-mac") "k" 0 "t1"
        [⟨"aaaaaaaaaaaaaaaaaaaaaaa1", "a@b.com", "A",
          get_password_hash toyCrypto "rightpass1", none, none, "t0", "t0"⟩]
        ⟨"nobody@x.com", "rightpass1"⟩ =
      login toyCrypto (fun q _ => q ++ "-mac") "k" 0 "t1"
        [⟨"aaaaaaaaaaaaaaaaaaaaaaa1", "a@b.com", "A",
          get_password_hash toyCrypto "rightpass1", none, none, "t0", "t0"⟩]
        ⟨"a@b.com", "wrongpass1"⟩ :=
  login_failure_indistinguishable toyCrypto (fun q _ => q ++ "-mac") "k" 0 "t1"
    [⟨"aaaaaaaaaaaaaaaaaaaaaaa1", "a@b.com", "A",
      get_password_hash toyCrypto "rightpass1", none, none, "t0", "t0"⟩]
    ⟨"nobody@x.com", "rightpass1"⟩ ⟨"a@b.com", "wrongpass1"⟩
    ⟨"aaaaaaaaaaaaaaaaaaaaaaa1", "a@b.com", "A",
      get_password_hash toyCrypto "rightpass1", none, none, "t0", "t0"⟩
    rfl rfl rfl

/-! ## List helper lemmas for the collection model -/

/-- `update_one` rewrites exactly the matching document: if `find?` by
key located `a`, then `find?` on the rewritten collection locates `g a`,
provided `g` preserves the key. -/
theorem find?_map_setOne {α : Type} (key : α → String) (i : String)
    (g : α → α) (hg : ∀ x, key (g x) = key x) (l : List α) (a : α)
    (h : l.find? (fun x => key x == i) = some a) :
    (l.map (fun x => if key x == i then g x else x)).find?
      (fun x => key x == i) = some (g a) := by
  induction l with
  | nil => simp at h
  | cons x xs ih =>
    cases hx : (key x == i) with
    | true =>
      simp only [List.find?_cons, hx, cond_true] at h
      injection h with h
      subst h
      simp only [List.map_cons, hx, if_true, reduceIte, List.find?_cons, hg,
        cond_true]
    | false =>
      simp only [List.find?_cons, hx, cond_false] at h
      simp only [List.map_cons, hx, Bool.false_eq_true, reduceIte,
        List.find?_cons, cond_false]
      exact ih h

/-- Documents whose key differs from the updated one survive an
`update_one` unchanged. -/
theorem mem_map_setOne_of_ne {α : Type} (key : α → String) (i : String)
    (g : α → α) (l : List α) (b : α) (hb : b ∈ l)
    (hne : (key b == i) = false) :
    b ∈ l.map (fun x => if key x == i then g x else x) := by
  have hmem := List.mem_map_of_mem (fun x => if key x == i then g x else x) hb
  simpa [hne] using hmem

/-- After `delete_one` by key on a collection with pairwise-distinct
keys, no document with that key remains. -/
theorem find?_eraseP_eq_none {α : Type} (key : α → String) (i : String)
    (l : List α) (hnd : (l.map key).Nodup) :
    (l.eraseP (fun x => key x == i)).find? (fun x => key x == i) = none := by
  induction l with
  | nil => simp
  | cons x xs ih =>
    rw [List.map_cons, List.nodup_cons] at hnd
    cases hx : (key x == i) with
    | true =>
      simp only [List.eraseP_cons, hx, cond_true]
      refine List.find?_eq_none.mpr fun y hy hky => ?_
      have hkx : key x = i := by simpa using hx
      have hky2 : key y = i := by simpa using hky
      exact hnd.1 (by rw [hkx, ← hky2]; exact List.mem_map_of_mem key hy)
    | false =>
      simp only [List.eraseP_cons, hx, cond_false, List.find?_cons]
      exact ih hnd.2

/-! ## PATCH /food/{food_id} (main.py lines 362-416) -/

/-- `FoodItemUpdate` (models.py lines 15-22): every field optional. -/
structure FoodItemUpdate where
  title : Option String
  pickup_lat : Option ℚ
  pickup_lng : Option ℚ
  pickup_address : Option String
  quantity : Option String
  available_until : Option String
  items : Option (List String)
deriving DecidableEq

/-- Python's `if not update_data` (main.py line 402): the `$set` dict is
empty exactly when every optional field is absent. -/
def FoodItemUpdate.isEmpty (fu : FoodItemUpdate) : Bool :=
  fu.title.isNone && fu.pickup_lat.isNone && fu.pickup_lng.isNone &&
    fu.pickup_address.isNone && fu.quantity.isNone &&
    fu.available_until.isNone && fu.items.isNone

/-- The `$set` write of main.py lines 386-410: each present field
overwrites the stored one, absent fields are untouched, and
`updated_at` is always set. -/
def applyFoodItemUpdate (fu : FoodItemUpdate) (nowS : String)
    (f : FoodDoc) : FoodDoc :=
  { f with
    title := fu.title.getD f.title
    pickup_lat := fu.pickup_lat.getD f.pickup_lat
    pickup_lng := fu.pickup_lng.getD f.pickup_lng
    pickup_address := fu.pickup_address.getD f.pickup_address
    quantity := fu.quantity.getD f.quantity
    available_until := fu.available_until.getD f.available_until
    items := fu.items.getD f.items
    updated_at := some nowS }

/-- The `update_food_item` handler (main.py lines 362-416):
`ObjectId(food_id)` raises an unhandled `InvalidId` on a malformed id;
then existence check (404), ownership check (403), empty-patch check
(400 "No fields to update"), the sparse `$set`, and the re-fetch of the
updated document. -/
def update_food_item (food_items : List FoodDoc) (food_id : String)
    (fu : FoodItemUpdate) (uid nowS : String) :
    HandlerResult (FoodDoc × List FoodDoc) :=
  if !(isValidObjectId food_id) then HandlerResult.serverError "InvalidId"
  else
    match food_items.find? (fun f => f._id == food_id) with
    | none => HandlerResult.http 404 "Food item not found"
    | some food =>
      if food.donor_uid != uid then
        HandlerResult.http 403 "Only owner can update food item"
      else if fu.isEmpty then
        HandlerResult.http 400 "No fields to update"
      else
        let food_items' := food_items.map (fun f =>
          if f._id == food_id then applyFoodItemUpdate fu nowS f else f)
        match food_items'.find? (fun f => f._id == food_id) with
        | none => HandlerResult.serverError "TypeError"
        | some updated_food => HandlerResult.ok (updated_food, food_items')

/-- C7. Sparse update semantics: for a donor PATCH on an existing item,
an all-absent patch body fails with 400 "No fields to update"; a
non-empty body succeeds and returns exactly the stored document with the
present fields overwritten, the update timestamp set, every absent field
and the identity/ownership/creation fields unchanged, and every other
document of the collection untouched. -/
theorem sparse_update_semantics (food_items : List FoodDoc)
    (food_id : String) (fu : FoodItemUpdate) (uid nowS : String)
    (food : FoodDoc)
    (hvalid : isValidObjectId food_id = true)
    (hfind : food_items.find? (fun f => f._id == food_id) = some food)
    (howner : food.donor_uid = uid) :
    (fu.isEmpty = true →
      update_food_item food_items food_id fu uid nowS =
        HandlerResult.http 400 "No fields to update") ∧
    (fu.isEmpty = false →
      update_food_item food_items food_id fu uid nowS =
        HandlerResult.ok (applyFoodItemUpdate fu nowS food,
          food_items.map (fun f =>
            if f._id == food_id then applyFoodItemUpdate fu nowS f else f)) ∧
      (∀ f ∈ food_items, (f._id == food_id) = false →
        f ∈ food_items.map (fun f =>
          if f._id == food_id then applyFoodItemUpdate fu nowS f else f))) ∧
    (applyFoodItemUpdate fu nowS food)._id = food._id ∧
    (applyFoodItemUpdate fu nowS food).donor_uid = food.donor_uid ∧
    (applyFoodItemUpdate fu nowS food).created_at = food.created_at ∧
    (applyFoodItemUpdate fu nowS food).updated_at = some nowS ∧
    (fu.title = none → (applyFoodItemUpdate fu nowS food).title = food.title) ∧
    (fu.pickup_lat = none →
      (applyFoodItemUpdate fu nowS food).pickup_lat = food.pickup_lat) ∧
    (fu.pickup_lng = none →
      (applyFoodItemUpdate fu nowS food).pickup_lng = food.pickup_lng) ∧
    (fu.pickup_address = none →
      (applyFoodItemUpdate fu nowS food).pickup_address =
        food.pickup_address) ∧
    (fu.quantity = none →
      (applyFoodItemUpdate fu nowS food).quantity = food.quantity) ∧
    (fu.available_until = none →
      (applyFoodItemUpdate fu nowS food).available_until =
        food.available_until) ∧
    (fu.items = none → (applyFoodItemUpdate fu nowS food).items = food.items) ∧
    (∀ q, fu.quantity = some q →
      (applyFoodItemUpdate fu nowS food).quantity = q) := by
  refine ⟨?_, ?_, rfl, rfl, rfl, rfl, ?_, ?_, ?_, ?_, ?_, ?_, ?_, ?_⟩
  · intro hempty
    unfold update_food_item
    rw [hvalid, hfind]
    simp [howner, hempty]
  · intro hnonempty
    constructor
    · unfold update_food_item
      rw [hvalid, hfind]
      have hfind' := find?_map_setOne (fun f : FoodDoc => f._id) food_id
        (applyFoodItemUpdate fu nowS) (fun f => rfl) food_items food hfind
      simp only [howner, bne_self_eq_false, Bool.false_eq_true, if_false,
        hnonempty, Bool.not_true, reduceIte]
      rw [hfind']
    · intro f hf hne
      exact mem_map_setOne_of_ne (fun f : FoodDoc => f._id) food_id
        (applyFoodItemUpdate fu nowS) food_items f hf hne
  · intro h; simp [applyFoodItemUpdate, h]
  · intro h; simp [applyFoodItemUpdate, h]
  · intro h; simp [applyFoodItemUpdate, h]
  · intro h; simp [applyFoodItemUpdate, h]
  · intro h; simp [applyFoodItemUpdate, h]
  · intro h; simp [applyFoodItemUpdate, h]
  · intro h; simp [applyFoodItemUpdate, h]
  · intro q hq; simp [applyFoodItemUpdate, hq]

/-- A concrete stored food item for the C7 witness. -/
def wFood : FoodDoc :=
  ⟨"aaaaaaaaaaaaaaaaaaaaaaa4", "Biryani", 1, 2, "12 Main St", "2 boxes",
    "2026-01-01T00:00:00+00:00", ["rice"], "aaaaaaaaaaaaaaaaaaaaaaa2",
    "t0", none⟩

/-- A patch body carrying only `quantity`. -/
def wPatch : FoodItemUpdate :=
  ⟨none, none, none, none, some "5 boxes", none, none⟩

/-- Witness for C7: patching only `{quantity: "5 boxes"}` on `wFood`
succeeds, leaves title and address as they were, writes the new
quantity; an all-empty patch body fails with 400 "No fields to update". -/
theorem sparse_update_semantics_witness :
    update_food_item [wFood] "aaaaaaaaaaaaaaaaaaaaaaa4" wPatch
        "aaaaaaaaaaaaaaaaaaaaaaa2" "t1" =
      HandlerResult.ok (applyFoodItemUpdate wPatch "t1" wFood,
        [applyFoodItemUpdate wPatch "t1" wFood]) ∧
    (applyFoodItemUpdate wPatch "t1" wFood).title = wFood.title ∧
    (applyFoodItemUpdate wPatch "t1" wFood).pickup_address =
      wFood.pickup_address ∧
    (applyFoodItemUpdate wPatch "t1" wFood).quantity = "5 boxes" ∧
    update_food_item [wFood] "aaaaaaaaaaaaaaaaaaaaaaa4"
        ⟨none, none, none, none, none, none, none⟩
        "aaaaaaaaaaaaaaaaaaaaaaa2" "t1" =
      HandlerResult.http 400 "No fields to update" := by
  have H := sparse_update_semantics [wFood] "aaaaaaaaaaaaaaaaaaaaaaa4"
    wPatch "aaaaaaaaaaaaaaaaaaaaaaa2" "t1" wFood (by decide) rfl rfl
  have H0 := sparse_update_semantics [wFood] "aaaaaaaaaaaaaaaaaaaaaaa4"
    ⟨none, none, none, none, none, none, none⟩
    "aaaaaaaaaaaaaaaaaaaaaaa2" "t1" wFood (by decide) rfl rfl
  obtain ⟨-, hne, -, -, -, -, htitle, -, -, haddr, -, -, -, hq⟩ := H
  exact ⟨(hne rfl).1, htitle rfl, haddr rfl, hq "5 boxes" rfl, H0.1 rfl⟩

/-! ## POST /food/{food_id}/request (main.py lines 463-511) and
DELETE /requests/{request_id} (main.py lines 611-633) -/

/-- The `create_request` handler (main.py lines 463-511):
`ObjectId(food_id)` raises an unhandled `InvalidId` on a malformed id;
then 404 if the item is absent, 400 on a self-request, insertion of a
pending request, and a best-effort donor notification. `new_id` is the
identifier MongoDB assigns to the inserted request document. -/
def create_request (food_items : List FoodDoc) (requests : List RequestDoc)
    (users : List UserDoc) (food_id : String) (notes : Option String)
    (uid uname new_id nowS : String) :
    HandlerResult (RequestDoc × List RequestDoc × List Notification) :=
  if !(isValidObjectId food_id) then HandlerResult.serverError "InvalidId"
  else
    match food_items.find? (fun f => f._id == food_id) with
    | none => HandlerResult.http 404 "Food item not found"
    | some food =>
      if food.donor_uid == uid then
        HandlerResult.http 400 "Cannot request your own food"
      else
        let request_doc : RequestDoc :=
          ⟨new_id, food_id, uid, food.donor_uid, "pending", notes, nowS, none⟩
        let requests' := requests ++ [request_doc]
        if !(isValidObjectId food.donor_uid) then
          HandlerResult.serverError "InvalidId"
        else
          match users.find? (fun u => u._id == food.donor_uid) with
          | some donor =>
            match donor.fcm_token with
            | some tok =>
              HandlerResult.ok (request_doc, requests',
                [⟨tok, "New Food Request",
                  uname ++ " requested your " ++ food.title⟩])
            | none => HandlerResult.ok (request_doc, requests', [])
          | none => HandlerResult.ok (request_doc, requests', [])

/-- The `delete_request` handler (main.py lines 611-633):
`ObjectId(request_id)` raises an unhandled `InvalidId` on a malformed
id; then 404 if absent, 403 if the caller is neither requester nor
donor, else `delete_one`. -/
def delete_request (requests : List RequestDoc) (request_id uid : String) :
    HandlerResult (String × List RequestDoc) :=
  if !(isValidObjectId request_id) then HandlerResult.serverError "InvalidId"
  else
    match requests.find? (fun r => r._id == request_id) with
    | none => HandlerResult.http 404 "Request not found"
    | some request =>
      if request.requester_uid != uid && request.donor_uid != uid then
        HandlerResult.http 403 "Only requester or donor can delete request"
      else
        HandlerResult.ok ("Request deleted successfully",
          requests.eraseP (fun r => r._id == request_id))

/-- Counterexample to C6: supplying the malformed identifier
"not-an-objectid" to PATCH /food/{food_id}, POST /food/{food_id}/request
and DELETE /requests/{request_id} does not produce a structured
Malformed-Identifier rejection: each handler raises an unhandled
`bson.errors.InvalidId` (surfaced by FastAPI as a 500 server failure). -/
theorem malformed_id_unhandled_counterexample :
    update_food_item [] "not-an-objectid" wPatch
        "aaaaaaaaaaaaaaaaaaaaaaa2" "t1" =
      HandlerResult.serverError "InvalidId" ∧
    create_request [] [] [] "not-an-objectid" none
        "aaaaaaaaaaaaaaaaaaaaaaa1" "A" "aaaaaaaaaaaaaaaaaaaaaaa5" "t1" =
      HandlerResult.serverError "InvalidId" ∧
    delete_request [] "not-an-objectid" "aaaaaaaaaaaaaaaaaaaaaaa1" =
      HandlerResult.serverError "InvalidId" := by
  refine ⟨?_, ?_, ?_⟩ <;> rfl

/-- C6 amended: a path identifier that is not a valid ObjectId
representation is not rejected with a structured error; in each of the
three handlers the `ObjectId` constructor raises an unhandled
`InvalidId` before the identifier is used, which surfaces as a server
failure (HTTP 500), for every state of the collections. -/
theorem malformed_id_unhandled (bad : String)
    (hbad : isValidObjectId bad = false)
    (food_items : List FoodDoc) (requests : List RequestDoc)
    (users : List UserDoc) (fu : FoodItemUpdate)
    (notes : Option String) (uid uname new_id nowS : String) :
    update_food_item food_items bad fu uid nowS =
      HandlerResult.serverError "InvalidId" ∧
    create_request food_items requests users bad notes uid uname
        new_id nowS =
      HandlerResult.serverError "InvalidId" ∧
    delete_request requests bad uid =
      HandlerResult.serverError "InvalidId" := by
  refine ⟨?_, ?_, ?_⟩ <;>
    simp [update_food_item, create_request, delete_request, hbad]

/-- Witness for the amended C6 at the concrete malformed identifier
"zzz" on singleton collections. -/
theorem malformed_id_unhandled_witness :
    update_food_item [wFood] "zzz" wPatch "aaaaaaaaaaaaaaaaaaaaaaa2" "t1" =
      HandlerResult.serverError "InvalidId" ∧
    create_request [wFood] [] [] "zzz" none "aaaaaaaaaaaaaaaaaaaaaaa1" "A"
        "aaaaaaaaaaaaaaaaaaaaaaa5" "t1" =
      HandlerResult.serverError "InvalidId" ∧
    delete_request [] "zzz" "aaaaaaaaaaaaaaaaaaaaaaa1" =
      HandlerResult.serverError "InvalidId" :=
  malformed_id_unhandled "zzz" (by decide) [wFood] [] [] wPatch none
    "aaaaaaaaaaaaaaaaaaaaaaa1" "A" "aaaaaaaaaaaaaaaaaaaaaaa5" "t1"

/-! ## PATCH /requests/{request_id} (main.py lines 556-602) -/

/-- The `update_request` handler (main.py lines 556-602):
`ObjectId(request_id)` raises `InvalidId` unhandled on a malformed id;
404 if absent, 403 if the caller is not the request's donor, 400 on a
status outside accepted/rejected/pending; otherwise `$set` the new
status and `updated_at`, re-fetch, and send a notification to the
requester whenever they are found and have a device token. The
human-readable label is `"accepted" if status == "accepted" else
"rejected"` — so a `pending` transition also notifies, labelled
"Rejected". -/
def update_request (requests : List RequestDoc) (users : List UserDoc)
    (food_items : List FoodDoc) (request_id status uid nowS : String) :
    HandlerResult (RequestDoc × List RequestDoc × List Notification) :=
  if !(isValidObjectId request_id) then HandlerResult.serverError "InvalidId"
  else
    match requests.find? (fun r => r._id == request_id) with
    | none => HandlerResult.http 404 "Request not found"
    | some request =>
      if request.donor_uid != uid then
        HandlerResult.http 403 "Only donor can update request"
      else if !(status == "accepted" || status == "rejected" ||
          status == "pending") then
        HandlerResult.http 400 "Invalid status"
      else
        let requests' := requests.map (fun r =>
          if r._id == request_id then
            { r with status := status, updated_at := some nowS }
          else r)
        match requests'.find? (fun r => r._id == request_id) with
        | none => HandlerResult.serverError "TypeError"
        | some updated_request =>
          if !(isValidObjectId request.requester_uid) then
            HandlerResult.serverError "InvalidId"
          else
            match users.find? (fun u => u._id == request.requester_uid) with
            | some requester =>
              match requester.fcm_token with
              | some tok =>
                if !(isValidObjectId request.food_id) then
                  HandlerResult.serverError "InvalidId"
                else
                  let food_title :=
                    match food_items.find? (fun f =>
                        f._id == request.food_id) with
                    | some food => food.title
                    | none => "food item"
                  let status_msg :=
                    if status == "accepted" then "accepted" else "rejected"
                  HandlerResult.ok (updated_request, requests',
                    [⟨tok, "Request " ++ status_msg.capitalize,
                      "Your request for " ++ food_title ++ " has been " ++
                        status_msg⟩])
              | none => HandlerResult.ok (updated_request, requests', [])
            | none => HandlerResult.ok (updated_request, requests', [])

/-- The stored request used in the C5 state. -/
def wRequest : RequestDoc :=
  ⟨"aaaaaaaaaaaaaaaaaaaaaaa3", "aaaaaaaaaaaaaaaaaaaaaaa4",
    "aaaaaaaaaaaaaaaaaaaaaaa1", "aaaaaaaaaaaaaaaaaaaaaaa2",
    "pending", none, "t0", none⟩

/-- The requester on record, with a stored device token. -/
def wRequester : UserDoc :=
  ⟨"aaaaaaaaaaaaaaaaaaaaaaa1", "r@x.com", "R", "h", none, some "tok",
    "t0", "t0"⟩

/-- Counterexample to C5: the donor PATCHes the request to status
`pending` while the requester has a device token — a push notification
IS sent (titled "Request Rejected"), contradicting the claim that a
pending transition does not result in a notification. -/
theorem pending_transition_notifies_counterexample :
    update_request [wRequest] [wRequester] [wFood]
        "aaaaaaaaaaaaaaaaaaaaaaa3" "pending" "aaaaaaaaaaaaaaaaaaaaaaa2"
        "t1" =
      HandlerResult.ok
        (⟨"aaaaaaaaaaaaaaaaaaaaaaa3", "aaaaaaaaaaaaaaaaaaaaaaa4",
            "aaaaaaaaaaaaaaaaaaaaaaa1", "aaaaaaaaaaaaaaaaaaaaaaa2",
            "pending", none, "t0", some "t1"⟩,
          [⟨"aaaaaaaaaaaaaaaaaaaaaaa3", "aaaaaaaaaaaaaaaaaaaaaaa4",
            "aaaaaaaaaaaaaaaaaaaaaaa1", "aaaaaaaaaaaaaaaaaaaaaaa2",
            "pending", none, "t0", some "t1"⟩],
          [⟨"tok", "Request Rejected",
            "Your request for Biryani has been rejected"⟩]) := by
  rfl

/-- C5 amended: on a donor status update with a valid status, when the
requester is on record with a device token (and the stored identifiers
are well-formed), exactly one notification is sent for every one of the
three statuses — `accepted` is labelled "accepted", while both
`rejected` and `pending` are labelled "rejected" (title
"Request `<label capitalized>`", body "Your request for `<food title>`
has been `<label>`"). -/
theorem update_request_notification (requests : List RequestDoc)
    (users : List UserDoc) (food_items : List FoodDoc)
    (request_id status uid nowS tok : String)
    (request : RequestDoc) (requester : UserDoc) (food : FoodDoc)
    (hvalid : isValidObjectId request_id = true)
    (hfind : requests.find? (fun r => r._id == request_id) = some request)
    (hdonor : request.donor_uid = uid)
    (hstatus : status = "accepted" ∨ status = "rejected" ∨
      status = "pending")
    (hvalidR : isValidObjectId request.requester_uid = true)
    (hrequester : users.find? (fun u => u._id == request.requester_uid) =
      some requester)
    (htok : requester.fcm_token = some tok)
    (hvalidF : isValidObjectId request.food_id = true)
    (hfood : food_items.find? (fun f => f._id == request.food_id) =
      some food) :
    update_request requests users food_items request_id status uid nowS =
      HandlerResult.ok
        ({ request with status := status, updated_at := some nowS },
          requests.map (fun r =>
            if r._id == request_id then
              { r with status := status, updated_at := some nowS }
            else r),
          [⟨tok,
            "Request " ++
              (if status == "accepted" then "accepted"
                else "rejected").capitalize,
            "Your request for " ++ food.title ++ " has been " ++
              (if status == "accepted" then "accepted" else "rejected")⟩]) := by
  have hfind' := find?_map_setOne (fun r : RequestDoc => r._id) request_id
    (fun r => { r with status := status, updated_at := some nowS })
    (fun r => rfl) requests request hfind
  have hstatusok : (status == "accepted" || status == "rejected" ||
      status == "pending") = true := by
    rcases hstatus with h | h | h <;> simp [h]
  unfold update_request
  rw [hvalid, hfind]
  simp only [hdonor, bne_self_eq_false, Bool.false_eq_true, if_false,
    hstatusok, Bool.not_true, reduceIte]
  rw [hfind']
  rw [hvalidR, hrequester]
  simp only [htok, Bool.not_true, reduceIte]
  rw [hvalidF, hfood]
  simp [hdonor]

/-- Witness for the amended C5: accepting the stored pending request
sends the "Request Accepted" notification with the food title from the
item on record. -/
theorem update_request_notification_witness :
    update_request [wRequest] [wRequester] [wFood]
        "aaaaaaaaaaaaaaaaaaaaaaa3" "accepted" "aaaaaaaaaaaaaaaaaaaaaaa2"
        "t1" =
      HandlerResult.ok
        ({ wRequest with status := "accepted", updated_at := some "t1" },
          [wRequest].map (fun r =>
            if r._id == "aaaaaaaaaaaaaaaaaaaaaaa3" then
              { r with status := "accepted", updated_at := some "t1" }
            else r),
          [⟨"tok",
            "Request " ++
              (if "accepted" == "accepted" then "accepted"
                else "rejected").capitalize,
            "Your request for " ++ wFood.title ++ " has been " ++
              (if "accepted" == "accepted" then "accepted"
                else "rejected")⟩]) :=
  update_request_notification [wRequest] [wRequester] [wFood]
    "aaaaaaaaaaaaaaaaaaaaaaa3" "accepted" "aaaaaaaaaaaaaaaaaaaaaaa2" "t1"
    "tok" wRequest wRequester wFood (by decide) rfl rfl (Or.inl rfl)
    (by decide) rfl rfl (by decide) rfl

/-! ## DELETE /user (main.py lines 783-847) -/

/-- The `delete_user` handler (main.py lines 783-847): find the caller's
record (404 if missing), verify the supplied password (401 on failure),
then delete in order — `delete_many` of the user's food items,
`delete_many` of requests where the user is requester, `delete_many` of
the remaining requests where the user is donor, `delete_one` of the
user record — and return the three `deleted_count`s. -/
def delete_user (P : CryptoPrimitives) (users : List UserDoc)
    (food_items : List FoodDoc) (requests : List RequestDoc)
    (uid password : String) :
    HandlerResult ((Nat × Nat × Nat) × List UserDoc × List FoodDoc ×
      List RequestDoc) :=
  if !(isValidObjectId uid) then HandlerResult.serverError "InvalidId"
  else
    match users.find? (fun u => u._id == uid) with
    | none => HandlerResult.http 404 "User not found"
    | some user =>
      if !(verify_password P password user.hashed_password) then
        HandlerResult.http 401 "Password is incorrect"
      else
        let food_items_deleted :=
          food_items.countP (fun f => f.donor_uid == uid)
        let food_items' := food_items.filter (fun f => !(f.donor_uid == uid))
        let requests_as_requester_deleted :=
          requests.countP (fun r => r.requester_uid == uid)
        let requests1 := requests.filter (fun r => !(r.requester_uid == uid))
        let requests_as_donor_deleted :=
          requests1.countP (fun r => r.donor_uid == uid)
        let requests2 := requests1.filter (fun r => !(r.donor_uid == uid))
        let users' := users.eraseP (fun u => u._id == uid)
        HandlerResult.ok
          ((food_items_deleted, requests_as_requester_deleted,
            requests_as_donor_deleted), users', food_items', requests2)

/-- C9. Account deletion cascade, order, and counts: with a found user
and a verified password, the handler deletes the user's food items, then
the requests where the user is requester, then the remaining requests
where the user is donor, then the user record; the returned counts are
the number of documents deleted in each respective step (in particular,
the as-donor count ranges over the requests surviving the as-requester
step); afterwards the user record is gone and no food item or request
of the user remains. -/
theorem account_deletion_cascade (P : CryptoPrimitives)
    (users : List UserDoc) (food_items : List FoodDoc)
    (requests : List RequestDoc) (uid password : String) (user : UserDoc)
    (hvalid : isValidObjectId uid = true)
    (hfind : users.find? (fun u => u._id == uid) = some user)
    (hpw : verify_password P password user.hashed_password = true)
    (hnodup : (users.map (fun u => u._id)).Nodup) :
    delete_user P users food_items requests uid password =
      HandlerResult.ok
        ((food_items.countP (fun f => f.donor_uid == uid),
          requests.countP (fun r => r.requester_uid == uid),
          requests.countP (fun r =>
            (r.donor_uid == uid) && !(r.requester_uid == uid))),
          users.eraseP (fun u => u._id == uid),
          food_items.filter (fun f => !(f.donor_uid == uid)),
          requests.filter (fun r =>
            !(r.donor_uid == uid) && !(r.requester_uid == uid))) ∧
    (users.eraseP (fun u => u._id == uid)).find?
      (fun u => u._id == uid) = none ∧
    (∀ f ∈ food_items.filter (fun f => !(f.donor_uid == uid)),
      (f.donor_uid == uid) = false) ∧
    (∀ r ∈ requests.filter (fun r =>
        !(r.donor_uid == uid) && !(r.requester_uid == uid)),
      (r.requester_uid == uid) = false ∧ (r.donor_uid == uid) = false) := by
  refine ⟨?_, find?_eraseP_eq_none (fun u : UserDoc => u._id) uid users hnodup,
    ?_, ?_⟩
  · unfold delete_user
    rw [hvalid, hfind]
    simp only [hpw, Bool.not_true, Bool.not_false, Bool.false_eq_true,
      reduceIte, List.countP_filter, List.filter_filter]
  · intro f hf
    simpa using (List.mem_filter.mp hf).2
  · intro r hr
    have h2 := (List.mem_filter.mp hr).2
    constructor <;> simp_all

/-- The account owner of the C9 witness (the donor of `wFood`). -/
def wOwner : UserDoc :=
  ⟨"aaaaaaaaaaaaaaaaaaaaaaa2", "d@x.com", "D",
    get_password_hash toyCrypto "rightpass1", none, none, "t0", "t0"⟩

/-- A second food item of the same owner. -/
def wFood2 : FoodDoc :=
  ⟨"aaaaaaaaaaaaaaaaaaaaaaa6", "Bread", 3, 4, "5 Side St", "1 bag",
    "2026-01-01T00:00:00+00:00", ["bread"], "aaaaaaaaaaaaaaaaaaaaaaa2",
    "t0", none⟩

/-- An outgoing request of the owner (owner is the requester). -/
def wOutgoing : RequestDoc :=
  ⟨"aaaaaaaaaaaaaaaaaaaaaaa9", "aaaaaaaaaaaaaaaaaaaaaaa7",
    "aaaaaaaaaaaaaaaaaaaaaaa2", "aaaaaaaaaaaaaaaaaaaaaaa8",
    "pending", none, "t0", none⟩

/-- Witness for C9, the specification's example: a user with 2 owned
food items, 1 outgoing request, and 1 incoming request; deletion
returns counts (2, 1, 1) and empties all four collections. -/
theorem account_deletion_cascade_witness :
    delete_user toyCrypto [wOwner] [wFood, wFood2] [wOutgoing, wRequest]
        "aaaaaaaaaaaaaaaaaaaaaaa2" "rightpass1" =
      HandlerResult.ok ((2, 1, 1), [], [], []) :=
  (account_deletion_cascade toyCrypto [wOwner] [wFood, wFood2]
    [wOutgoing, wRequest] "aaaaaaaaaaaaaaaaaaaaaaa2" "rightpass1" wOwner
    (by decide) rfl rfl (by decide)).1.trans (by rfl)

/-! ## POST /user/fcm-token and GET /user (main.py lines 636-705) -/

/-- `update_one` on an id no document carries leaves the collection
unchanged (zero documents matched). -/
theorem map_setOne_of_absent {α : Type} (key : α → String) (i : String)
    (g : α → α) (l : List α)
    (h : l.find? (fun x => key x == i) = none) :
    l.map (fun x => if key x == i then g x else x) = l := by
  induction l with
  | nil => rfl
  | cons x xs ih =>
    rw [List.find?_cons] at h
    cases hx : (key x == i) with
    | true => rw [hx] at h; simp at h
    | false =>
      rw [hx] at h
      simp only [cond_false] at h
      simp only [List.map_cons, hx, Bool.false_eq_true, reduceIte]
      rw [ih h]

/-- The `update_fcm_token` handler (main.py lines 681-705): a single
`update_one` that `$set`s the token and `updated_at`, then the success
message — with no existence check on the user record. -/
def update_fcm_token (users : List UserDoc) (uid tok nowS : String) :
    HandlerResult (String × List UserDoc) :=
  if !(isValidObjectId uid) then HandlerResult.serverError "InvalidId"
  else
    HandlerResult.ok ("FCM token updated",
      users.map (fun u =>
        if u._id == uid then
          { u with fcm_token := some tok, updated_at := nowS }
        else u))

/-- The `get_user` handler (main.py lines 642-672): find the caller's
record, 404 "User not found" if absent, else the profile. -/
def get_user (users : List UserDoc) (uid : String) :
    HandlerResult UserDoc :=
  if !(isValidObjectId uid) then HandlerResult.serverError "InvalidId"
  else
    match users.find? (fun u => u._id == uid) with
    | none => HandlerResult.http 404 "User not found"
    | some user => HandlerResult.ok user

/-- C10. FCM-token update performs no existence check: when the
authenticated user's record is absent from the users collection, the
handler still returns "FCM token updated" (the update matches zero
documents and the collection is unchanged), whereas GET /user returns
404 "User not found" in the same situation. -/
theorem fcm_token_update_no_existence_check (users : List UserDoc)
    (uid tok nowS : String)
    (hvalid : isValidObjectId uid = true)
    (habsent : users.find? (fun u => u._id == uid) = none) :
    update_fcm_token users uid tok nowS =
      HandlerResult.ok ("FCM token updated", users) ∧
    get_user users uid = HandlerResult.http 404 "User not found" := by
  constructor
  · unfold update_fcm_token
    rw [hvalid]
    simp only [Bool.not_true, Bool.false_eq_true, reduceIte]
    rw [map_setOne_of_absent (fun u : UserDoc => u._id) uid
      (fun u => { u with fcm_token := some tok, updated_at := nowS })
      users habsent]
  · unfold get_user
    rw [hvalid, habsent]
    simp

/-- Witness for C10: the stored collection holds only a different user;
the FCM-token update for the missing user id still reports success and
leaves the collection unchanged, while GET /user yields 404. -/
theorem fcm_token_update_no_existence_check_witness :
    update_fcm_token [wRequester] "aaaaaaaaaaaaaaaaaaaaaaa2" "newtok"
        "t1" =
      HandlerResult.ok ("FCM token updated", [wRequester]) ∧
    get_user [wRequester] "aaaaaaaaaaaaaaaaaaaaaaa2" =
      HandlerResult.http 404 "User not found" :=
  fcm_token_update_no_existence_check [wRequester]
    "aaaaaaaaaaaaaaaaaaaaaaa2" "newtok" "t1" (by decide) rfl

/-! ## GET /food radius filter (main.py lines 241-304)

The in-memory Haversine filter of `get_food_items`. Python's `math`
floating-point trigonometry is idealised as exact real arithmetic, so
the filter is a noncomputable definition over ℝ; only the coordinate
fields matter to it, so items are reduced to their coordinates. -/

/-- The coordinates of a stored food item as seen by the radius
filter. -/
structure GeoItem where
  pickup_lat : ℝ
  pickup_lng : ℝ

/-- `math.radians`: degrees to radians. -/
noncomputable def radians (x : ℝ) : ℝ := x * Real.pi / 180

/-- The Haversine great-circle distance of main.py lines 288-294:
`R = 6371` km, `a = sin²(dlat/2) + cos(lat)·cos(item_lat)·sin²(dlng/2)`,
`c = 2·asin(√a)`, `distance = R·c`. -/
noncomputable def haversine_distance (lat lng item_lat item_lng : ℝ) : ℝ :=
  let dlat := radians (item_lat - lat)
  let dlng := radians (item_lng - lng)
  let a := Real.sin (dlat / 2) ^ 2 +
    Real.cos (radians lat) * Real.cos (radians item_lat) *
      Real.sin (dlng / 2) ^ 2
  let c := 2 * Real.arcsin (Real.sqrt a)
  6371 * c

open Classical in
/-- The in-memory filtering loop (main.py lines 283-297): keep exactly
the items whose Haversine distance from the search origin is at most
`radius_km`. -/
noncomputable def radius_filter (lat lng radius_km : ℝ)
    (items : List GeoItem) : List GeoItem :=
  items.filter (fun i =>
    decide (haversine_distance lat lng i.pickup_lat i.pickup_lng ≤
      radius_km))

/-- The guard of main.py line 282: the radius filter runs exactly when
`lat`, `lng` and `radius_km` are all supplied; otherwise the matching
items pass through unchanged. -/
noncomputable def geo_phase (lat lng radius_km : Option ℝ)
    (items : List GeoItem) : List GeoItem :=
  match lat, lng, radius_km with
  | some la, some ln, some r => radius_filter la ln r items
  | _, _, _ => items

/-- The distance computed for an item at (0,0) from a search origin at
(0,1) is exactly `6371·π/180` km (≈ 111.19 km). -/
theorem haversine_example :
    haversine_distance 0 1 0 0 = 6371 * (Real.pi / 180) := by
  have hpi := Real.pi_pos
  have hsq : Real.sqrt (Real.sin (Real.pi / 360) ^ 2) =
      Real.sin (Real.pi / 360) :=
    Real.sqrt_sq (Real.sin_nonneg_of_nonneg_of_le_pi (by positivity)
      (by linarith))
  have harc : Real.arcsin (Real.sin (Real.pi / 360)) = Real.pi / 360 :=
    Real.arcsin_sin (by linarith) (by linarith)
  have e1 : ((0 : ℝ) - 0) * Real.pi / 180 / 2 = 0 := by ring
  have e2 : ((0 : ℝ) - 1) * Real.pi / 180 / 2 = -(Real.pi / 360) := by
    ring
  have e3 : (0 : ℝ) * Real.pi / 180 = 0 := by ring
  have e4 : (1 : ℝ) * Real.pi / 180 = Real.pi / 180 := by ring
  simp only [haversine_distance, radians, e1, e2, e3, e4]
  rw [Real.sin_zero, Real.cos_zero, Real.sin_neg]
  have e5 : (0 : ℝ) ^ 2 + 1 * 1 * (-Real.sin (Real.pi / 360)) ^ 2 =
      Real.sin (Real.pi / 360) ^ 2 := by ring
  rw [e5, hsq, harc]
  ring

/-- C8. Geo filter correctness: a stored item survives the radius
filter exactly when it was among the matching items and its Haversine
distance (Earth radius 6371 km) from the origin is at most `radius_km`;
the filter runs only when all three of lat, lng, radius_km are
supplied; and for the specification's example, the item at (0,0) with
origin (0,1) is kept at radius 200 km and dropped at radius 50 km. -/
theorem geo_filter_correctness (la ln r : ℝ) (items : List GeoItem)
    (i : GeoItem) :
    (i ∈ radius_filter la ln r items ↔
      i ∈ items ∧
        haversine_distance la ln i.pickup_lat i.pickup_lng ≤ r) ∧
    geo_phase (some la) (some ln) (some r) items =
      radius_filter la ln r items ∧
    geo_phase none (some ln) (some r) items = items ∧
    geo_phase (some la) none (some r) items = items ∧
    geo_phase (some la) (some ln) none items = items ∧
    geo_phase (some 0) (some 1) (some 200) [⟨0, 0⟩] = [⟨0, 0⟩] ∧
    geo_phase (some 0) (some 1) (some 50) [⟨0, 0⟩] = [] := by
  have hle : haversine_distance 0 1 0 0 ≤ 200 := by
    rw [haversine_example]
    have := Real.pi_lt_d2
    linarith
  have hgt : ¬ haversine_distance 0 1 0 0 ≤ 50 := by
    rw [haversine_example]
    have := Real.pi_gt_three
    push_neg
    nlinarith
  refine ⟨?_, rfl, rfl, rfl, rfl, ?_, ?_⟩
  · simp [radius_filter, List.mem_filter]
  · show radius_filter 0 1 200 [⟨0, 0⟩] = [⟨0, 0⟩]
    simp [radius_filter, List.filter, hle]
  · show radius_filter 0 1 50 [⟨0, 0⟩] = []
    simp [radius_filter, List.filter, hgt]
